import Mathlib

/-!
# Verification of the plain_press multi-stage filter pipeline

Shallow embedding of the judged filtering pipeline of the `plain_press`
repository:

* `app/services/filter_news_check.py`, `filter_wow_factor.py`,
  `filter_values_fit.py` — the three judge stages;
* `app/services/filter_pipeline.py` — the batch orchestrator
  (`run_pipeline`) and single-article entry point
  (`run_pipeline_for_article`);
* `scripts/filter_worker.py` — the durable queue worker
  (`process_article_with_tracing`, `claim_next_article`, the pass-count
  bookkeeping of `run_worker_loop`).

Modelling conventions:

* Python floats that carry judge scores are modelled as `ℚ` (the stage
  logic only clamps and compares — no rounding is involved).
* Text that is sliced character-wise (article content) is `List Char`;
  text used opaquely (titles, urls, reasoning) is `String`, with Python
  slicing `s[:n]` modelled by `pyTake`.
* The external judge service is an oracle `Nat → Except String r`, indexed
  by attempt number: attempt `k` is the outcome of the `k`-th
  `client.beta.messages.create`-and-parse executed by the stage body.  An
  `Except.error e` covers any exception raised inside the stage's `try`
  block (transport failure, timeout, `json.loads` parse failure, missing
  key), carrying Python's exception text `str(e)`.
* Wall-clock latencies measured around calls are passed in as parameters.
-/

set_option maxRecDepth 4000

/-- Python's `str.isspace` on the ASCII whitespace characters stripped by
`str.strip()`.  (The contents exercised in this development are ASCII.) -/
def pyIsSpace (c : Char) : Bool :=
  c == ' ' || c == '\t' || c == '\n' || c == '\r' || c == '\x0b' || c == '\x0c'

/-- Python `s.strip()`: remove leading and trailing whitespace. -/
def pyStrip (s : List Char) : List Char :=
  ((s.dropWhile pyIsSpace).reverse.dropWhile pyIsSpace).reverse

/-- Python string slicing `s[:n]` on opaque text. -/
def pyTake (s : String) (n : Nat) : String :=
  String.mk (s.data.take n)

/-- `CONTENT_LIMIT = 8000` — shared constant of all three stage modules. -/
def CONTENT_LIMIT : Nat := 8000

/-- The marker appended by `truncate_content` when content is cut:
`"\n\n[Content truncated...]"` (24 characters). -/
def TRUNCATION_SUFFIX : List Char := ("\n\n[Content truncated...]" : String).data

/-- `truncate_content` (identical in all three stage modules, always called
with the default limit):

    if len(content) <= limit: return content
    return content[:limit] + "\n\n[Content truncated...]"
-/
def truncate_content (content : List Char) : List Char :=
  if content.length ≤ CONTENT_LIMIT then content
  else content.take CONTENT_LIMIT ++ TRUNCATION_SUFFIX

/-- The `{url, title, content}` dict handed to the stage functions. -/
structure ArticleData where
  url : String
  title : String
  content : List Char
deriving DecidableEq

/-- Parsed judge response for News Check (fields of `NEWS_CHECK_SCHEMA`,
plus the token usage reported with the response). -/
structure NewsJudgeResponse where
  is_news : Bool
  category : String
  reasoning : String
  input_tokens : Nat
  output_tokens : Nat
deriving DecidableEq

/-- Parsed judge response for Wow Factor / Values Fit (fields of
`WOW_FACTOR_SCHEMA` / `VALUES_FIT_SCHEMA`): an unconstrained numeric score
plus reasoning, and the token usage reported with the response. -/
structure ScoreJudgeResponse where
  score : ℚ
  reasoning : String
  input_tokens : Nat
  output_tokens : Nat
deriving DecidableEq

/-- `NewsCheckResult` dataclass. -/
structure NewsCheckResult where
  passed : Bool
  category : String
  reasoning : String
  input_tokens : Option Nat
  output_tokens : Option Nat
  latency_ms : Option Nat
deriving DecidableEq

/-- `WowFactorResult` dataclass. -/
structure WowFactorResult where
  passed : Bool
  score : ℚ
  reasoning : String
  input_tokens : Option Nat
  output_tokens : Option Nat
  latency_ms : Option Nat
deriving DecidableEq

/-- `ValuesFitResult` dataclass (same shape as `WowFactorResult`). -/
structure ValuesFitResult where
  passed : Bool
  score : ℚ
  reasoning : String
  input_tokens : Option Nat
  output_tokens : Option Nat
  latency_ms : Option Nat
deriving DecidableEq

/-- The hard-coded reasoning of the insufficient-content rejection in
`filter_news_check`. -/
def INSUFFICIENT_REASONING : String :=
  "Insufficient content to evaluate - article appears empty or failed to scrape"

/-- `filter_news_check(article)` from `filter_news_check.py`.

The body truncates the content, short-circuits on empty / short content
without consulting the judge, and otherwise makes a single judge call
(`oracle 0`); any exception in that call-and-parse becomes a definitive
rejection with `"Filter error: " ++ e` as reasoning. -/
def filter_news_check (article : ArticleData)
    (oracle : Nat → Except String NewsJudgeResponse) (latency_ms : Nat) :
    NewsCheckResult :=
  let content := truncate_content article.content
  -- `if not content or len(content.strip()) < 50:`
  if content.isEmpty || decide ((pyStrip content).length < 50) then
    { passed := false, category := "other_non_news",
      reasoning := INSUFFICIENT_REASONING,
      input_tokens := some 0, output_tokens := some 0, latency_ms := some 0 }
  else
    match oracle 0 with
    | Except.ok r =>
        { passed := r.is_news, category := r.category, reasoning := r.reasoning,
          input_tokens := some r.input_tokens, output_tokens := some r.output_tokens,
          latency_ms := some latency_ms }
    | Except.error e =>
        { passed := false, category := "other_non_news",
          reasoning := "Filter error: " ++ e,
          input_tokens := some 0, output_tokens := some 0,
          latency_ms := some latency_ms }

/-- `filter_wow_factor(article)` from `filter_wow_factor.py`; `threshold`
is `WOW_THRESHOLD` (env-configurable, default 0.5).

    score = max(0.0, min(1.0, result["wow_score"]))
    passed = score >= WOW_THRESHOLD
-/
def filter_wow_factor (article : ArticleData) (threshold : ℚ)
    (oracle : Nat → Except String ScoreJudgeResponse) (latency_ms : Nat) :
    WowFactorResult :=
  -- content is truncated into the prompt only; it does not affect the verdict
  let _content := truncate_content article.content
  match oracle 0 with
  | Except.ok r =>
      let score := max 0 (min 1 r.score)
      { passed := decide (threshold ≤ score), score := score,
        reasoning := r.reasoning,
        input_tokens := some r.input_tokens, output_tokens := some r.output_tokens,
        latency_ms := some latency_ms }
  | Except.error e =>
      { passed := false, score := 0, reasoning := "Filter error: " ++ e,
        input_tokens := some 0, output_tokens := some 0,
        latency_ms := some latency_ms }

/-- `filter_values_fit(article, rules)` from `filter_values_fit.py`;
`threshold` is `VALUES_THRESHOLD` (env-configurable, default 0.5).  The
rules only shape the prompt, not the verdict logic, so they are not
modelled. -/
def filter_values_fit (article : ArticleData) (threshold : ℚ)
    (oracle : Nat → Except String ScoreJudgeResponse) (latency_ms : Nat) :
    ValuesFitResult :=
  let _content := truncate_content article.content
  match oracle 0 with
  | Except.ok r =>
      let score := max 0 (min 1 r.score)
      { passed := decide (threshold ≤ score), score := score,
        reasoning := r.reasoning,
        input_tokens := some r.input_tokens, output_tokens := some r.output_tokens,
        latency_ms := some latency_ms }
  | Except.error e =>
      { passed := false, score := 0, reasoning := "Filter error: " ++ e,
        input_tokens := some 0, output_tokens := some 0,
        latency_ms := some latency_ms }

/-! ## Trace / Run data model and the worker (`scripts/filter_worker.py`) -/

/-- `filter_status` enum (migration `fdb9e7602bf7`):
`unfiltered | filtering | passed | rejected`. -/
inductive FilterStatus
  | unfiltered
  | filtering
  | passed
  | rejected
deriving DecidableEq

/-- `ArticleStatus` enum values touched by the worker. -/
inductive ArticleStatus
  | pending
  | emailed
  | good
  | rejected
  | passed
  | published
deriving DecidableEq

/-- The `Article` columns read or written by the filter worker. -/
structure Article where
  external_url : String
  headline : String
  raw_content : Option (List Char)
  filter_status : FilterStatus
  status : ArticleStatus
  filter_score : Option ℚ
  filter_notes : Option String
  content_type : Option String
  wow_score : Option ℚ
  last_run_id : Option Nat
deriving DecidableEq

/-- One `FilterTrace` row (run ids modelled as `Nat`). -/
structure FilterTrace where
  run_id : Nat
  article_url : String
  article_title : String
  filter_name : String
  filter_order : Nat
  decision : String
  score : Option ℚ
  reasoning : String
  input_tokens : Option Nat
  output_tokens : Option Nat
  latency_ms : Option Nat
deriving DecidableEq

/-- `record_trace` of `scripts/filter_worker.py`: builds the row, with
`article.headline[:500]` as title and `reasoning[:2000] if reasoning else ""`. -/
def record_trace (run_id : Nat) (article : Article) (filter_name : String)
    (filter_order : Nat) (decision : String) (reasoning : String)
    (score : Option ℚ) (input_tokens output_tokens latency_ms : Option Nat) :
    FilterTrace :=
  { run_id := run_id,
    article_url := article.external_url,
    article_title := pyTake article.headline 500,
    filter_name := filter_name,
    filter_order := filter_order,
    decision := decision,
    score := score,
    reasoning := if reasoning = "" then "" else pyTake reasoning 2000,
    input_tokens := input_tokens,
    output_tokens := output_tokens,
    latency_ms := latency_ms }

/-- Models Python's `f"{q:.2f}"` rendering of a score inside a notes string.
The exact rendering is immaterial to every property proved here. -/
def fmtScore (q : ℚ) : String :=
  toString q.num ++ "/" ++ toString q.den

/-- The environment of one article's pipeline run: the judge oracles of the
three stages (attempt-indexed) and the wall-clock latencies the worker
measures around each stage call. -/
structure JudgeEnv where
  newsOracle : Nat → Except String NewsJudgeResponse
  wowOracle : Nat → Except String ScoreJudgeResponse
  valuesOracle : Nat → Except String ScoreJudgeResponse
  newsLatency : Nat
  wowLatency : Nat
  valuesLatency : Nat

/-- Output of `process_article_with_tracing`: the mutated article, the trace
rows added to the session, the stages whose filter function was invoked (in
invocation order), and the returned `(passed, rejection_stage)` pair. -/
structure WorkerOutcome where
  article : Article
  traces : List FilterTrace
  invoked : List String
  passed : Bool
  rejection_stage : Option String
deriving DecidableEq

/-- `process_article_with_tracing(session, article, run_id, rules)` of
`scripts/filter_worker.py`.

The three stage functions are total in this embedding (each converts any
judge failure into a rejection verdict itself), so the worker's
`except Exception` arms — reachable in Python only through failures outside
the judge call, e.g. the client constructor — are not represented.
Faithfully to the source: one trace row per invoked stage, recorded before
the next stage runs; `wow_score` written whenever stage 2 ran;
`filter_score = result3.score or 0.0` written whenever stage 3 ran. -/
def process_article_with_tracing (run_id : Nat) (article : Article)
    (env : JudgeEnv) (wowThreshold valuesThreshold : ℚ) : WorkerOutcome :=
  let article_data : ArticleData :=
    { url := article.external_url, title := article.headline,
      content := article.raw_content.getD [] }
  -- FILTER 1: News Check
  let result1 := filter_news_check article_data env.newsOracle env.newsLatency
  let trace1 := record_trace run_id article "news_check" 1
      (if result1.passed then "pass" else "reject") result1.reasoning
      none result1.input_tokens result1.output_tokens (some env.newsLatency)
  if ¬ result1.passed then
    { article := { article with
        content_type := some result1.category,
        filter_score := some 0,
        filter_notes := some ("Rejected at news_check: " ++ result1.reasoning) },
      traces := [trace1],
      invoked := ["news_check"],
      passed := false,
      rejection_stage := some "news_check" }
  else
    -- FILTER 2: Wow Factor
    let result2 := filter_wow_factor article_data wowThreshold env.wowOracle env.wowLatency
    let trace2 := record_trace run_id article "wow_factor" 2
        (if result2.passed then "pass" else "reject") result2.reasoning
        (some result2.score) result2.input_tokens result2.output_tokens
        (some env.wowLatency)
    let article2 := { article with wow_score := some result2.score }
    if ¬ result2.passed then
      { article := { article2 with
          content_type := some "news_article",
          filter_score := some 0,
          filter_notes := some ("Rejected at wow_factor: " ++ result2.reasoning) },
        traces := [trace1, trace2],
        invoked := ["news_check", "wow_factor"],
        passed := false,
        rejection_stage := some "wow_factor" }
    else
      -- FILTER 3: Values Fit
      let result3 := filter_values_fit article_data valuesThreshold env.valuesOracle env.valuesLatency
      let trace3 := record_trace run_id article "values_fit" 3
          (if result3.passed then "pass" else "reject") result3.reasoning
          (some result3.score) result3.input_tokens result3.output_tokens
          (some env.valuesLatency)
      -- `article.filter_score = result3.score or 0.0`
      let article3 := { article2 with
          filter_score := some (if result3.score = 0 then 0 else result3.score) }
      if ¬ result3.passed then
        { article := { article3 with
            content_type := some "news_article",
            filter_notes := some ("Rejected at values_fit: " ++ result3.reasoning) },
          traces := [trace1, trace2, trace3],
          invoked := ["news_check", "wow_factor", "values_fit"],
          passed := false,
          rejection_stage := some "values_fit" }
      else
        { article := { article3 with
            content_type := some "news_article",
            filter_notes := some ("Passed all filters. Wow: " ++ fmtScore result2.score
              ++ ". Values: " ++ fmtScore result3.score) },
          traces := [trace1, trace2, trace3],
          invoked := ["news_check", "wow_factor", "values_fit"],
          passed := true,
          rejection_stage := none }

/-! ## Run pass-count bookkeeping (`run_worker_loop` and `run_pipeline`) -/

/-- The per-item counter update of `run_worker_loop` (lines 366–382 of
`scripts/filter_worker.py`), applied to `(filter1_pass, filter2_pass,
filter3_pass)` after `process_article_with_tracing` returns
`(passed, rejection_stage)`:

    if passed: all three += 1
    else:
        if rejection_stage not in ["news_check", "news_check_error"]: f1 += 1
        if rejection_stage not in ["news_check", "news_check_error",
                                   "wow_factor", "wow_factor_error"]: f2 += 1
-/
def update_pass_counts (c : Nat × Nat × Nat) (passed : Bool)
    (rejection_stage : Option String) : Nat × Nat × Nat :=
  if passed then (c.1 + 1, c.2.1 + 1, c.2.2 + 1)
  else
    let f1 := if rejection_stage = some "news_check" ∨
                 rejection_stage = some "news_check_error" then c.1 else c.1 + 1
    let f2 := if rejection_stage = some "news_check" ∨
                 rejection_stage = some "news_check_error" ∨
                 rejection_stage = some "wow_factor" ∨
                 rejection_stage = some "wow_factor_error" then c.2.1 else c.2.1 + 1
    (f1, f2, c.2.2)

/-- The worker-session counters after a list of processed-item outcomes,
starting from `(0, 0, 0)` as at worker start; these are the values written
to `filter1_pass_count / filter2_pass_count / filter3_pass_count` by
`update_run_counts` after every batch and at finalization. -/
def run_worker_counts (outcomes : List (Bool × Option String)) : Nat × Nat × Nat :=
  outcomes.foldl (fun c o => update_pass_counts c o.1 o.2) (0, 0, 0)

/-- The per-article counter increments of `run_pipeline`
(`app/services/filter_pipeline.py`): `filter1_pass_count += 1` after a
stage-1 pass, and so on, short-circuiting on first rejection. -/
def pipeline_article_delta (article : ArticleData) (env : JudgeEnv)
    (wowThreshold valuesThreshold : ℚ) : Nat × Nat × Nat :=
  let result1 := filter_news_check article env.newsOracle env.newsLatency
  if ¬ result1.passed then (0, 0, 0)
  else
    let result2 := filter_wow_factor article wowThreshold env.wowOracle env.wowLatency
    if ¬ result2.passed then (1, 0, 0)
    else
      let result3 := filter_values_fit article valuesThreshold env.valuesOracle env.valuesLatency
      if ¬ result3.passed then (1, 1, 0) else (1, 1, 1)

/-- The final `(filter1_pass, filter2_pass, filter3_pass)` written by
`update_pipeline_run` at the end of `run_pipeline` over a batch. -/
def run_pipeline_counts (items : List (ArticleData × JudgeEnv))
    (wowThreshold valuesThreshold : ℚ) : Nat × Nat × Nat :=
  items.foldl
    (fun c item =>
      let d := pipeline_article_delta item.1 item.2 wowThreshold valuesThreshold
      (c.1 + d.1, c.2.1 + d.2.1, c.2.2 + d.2.2))
    (0, 0, 0)

/-! ## Batch orchestrator per-article processing (`run_pipeline`) -/

/-- `FilterResult` dataclass of `app/services/filter_pipeline.py`. -/
structure FilterResult where
  url : String
  title : String
  passed : Bool
  content_type : Option String
  wow_score : Option ℚ
  values_score : Option ℚ
  rejection_stage : Option String
  rejection_reason : Option String
deriving DecidableEq

/-- `record_trace` of `app/services/filter_pipeline.py` (tracing enabled,
the default): title truncated to 500 characters, reasoning stored as-is. -/
def record_trace_pipeline (run_id : Nat) (article_url article_title : String)
    (filter_name : String) (filter_order : Nat) (decision : String)
    (reasoning : String) (score : Option ℚ)
    (input_tokens output_tokens latency_ms : Option Nat) : FilterTrace :=
  { run_id := run_id,
    article_url := article_url,
    article_title := pyTake article_title 500,
    filter_name := filter_name,
    filter_order := filter_order,
    decision := decision,
    score := score,
    reasoning := reasoning,
    input_tokens := input_tokens,
    output_tokens := output_tokens,
    latency_ms := latency_ms }

/-- The body of `run_pipeline`'s per-article loop (no-exception path; the
stage functions are total here): the `FilterResult` appended to
`passed_articles`/`failed_articles` and the traces recorded for this
article.  Trace latencies in `run_pipeline` come from the stage results
themselves. -/
def process_article_pipeline (run_id : Nat) (article : ArticleData)
    (env : JudgeEnv) (wowThreshold valuesThreshold : ℚ) :
    FilterResult × List FilterTrace :=
  -- FILTER 1: News Check
  let result1 := filter_news_check article env.newsOracle env.newsLatency
  let trace1 := record_trace_pipeline run_id article.url article.title
      "news_check" 1 (if result1.passed then "pass" else "reject")
      result1.reasoning none result1.input_tokens result1.output_tokens
      result1.latency_ms
  if ¬ result1.passed then
    ({ url := article.url, title := article.title, passed := false,
       content_type := some result1.category, wow_score := none,
       values_score := none, rejection_stage := some "news_check",
       rejection_reason := some result1.reasoning }, [trace1])
  else
    -- FILTER 2: Wow Factor
    let result2 := filter_wow_factor article wowThreshold env.wowOracle env.wowLatency
    let trace2 := record_trace_pipeline run_id article.url article.title
        "wow_factor" 2 (if result2.passed then "pass" else "reject")
        result2.reasoning (some result2.score) result2.input_tokens
        result2.output_tokens result2.latency_ms
    if ¬ result2.passed then
      ({ url := article.url, title := article.title, passed := false,
         content_type := some "news_article", wow_score := some result2.score,
         values_score := none, rejection_stage := some "wow_factor",
         rejection_reason := some result2.reasoning }, [trace1, trace2])
    else
      -- FILTER 3: Values Fit
      let result3 := filter_values_fit article valuesThreshold env.valuesOracle env.valuesLatency
      let trace3 := record_trace_pipeline run_id article.url article.title
          "values_fit" 3 (if result3.passed then "pass" else "reject")
          result3.reasoning (some result3.score) result3.input_tokens
          result3.output_tokens result3.latency_ms
      if ¬ result3.passed then
        ({ url := article.url, title := article.title, passed := false,
           content_type := some "news_article", wow_score := some result2.score,
           values_score := some result3.score,
           rejection_stage := some "values_fit",
           rejection_reason := some result3.reasoning }, [trace1, trace2, trace3])
      else
        ({ url := article.url, title := article.title, passed := true,
           content_type := some "news_article", wow_score := some result2.score,
           values_score := some result3.score, rejection_stage := none,
           rejection_reason := none }, [trace1, trace2, trace3])

/-! ## Single-article entry point (`run_pipeline_for_article`) -/

/-- `SingleArticleResult` dataclass of `app/services/filter_pipeline.py`. -/
structure SingleArticleResult where
  passed : Bool
  filter_score : ℚ
  filter_notes : String
  summary : String
  amish_angle : String
  content_type : Option String
  wow_score : Option ℚ
deriving DecidableEq

/-- `run_pipeline_for_article(article)` of `app/services/filter_pipeline.py`
(no-exception path; the stage functions are total here).  Note the passed
branch: `filter_score = result3.score or 0.7` — Python's `or` falls back to
`0.7` when the score is the falsy `0.0` — and the values-fit rejection
branch: `filter_score = result3.score or 0.0`. -/
def run_pipeline_for_article (article : Article) (env : JudgeEnv)
    (wowThreshold valuesThreshold : ℚ) : SingleArticleResult :=
  let article_data : ArticleData :=
    { url := article.external_url, title := article.headline,
      content := article.raw_content.getD [] }
  let result1 := filter_news_check article_data env.newsOracle env.newsLatency
  if ¬ result1.passed then
    { passed := false, filter_score := 0,
      filter_notes := "Rejected at news_check: " ++ result1.reasoning,
      summary := "", amish_angle := "",
      content_type := some result1.category, wow_score := none }
  else
    let result2 := filter_wow_factor article_data wowThreshold env.wowOracle env.wowLatency
    if ¬ result2.passed then
      { passed := false, filter_score := 0,
        filter_notes := "Rejected at wow_factor: " ++ result2.reasoning,
        summary := "", amish_angle := "",
        content_type := some "news_article", wow_score := some result2.score }
    else
      let result3 := filter_values_fit article_data valuesThreshold env.valuesOracle env.valuesLatency
      if ¬ result3.passed then
        { passed := false,
          filter_score := if result3.score = 0 then 0 else result3.score,
          filter_notes := "Rejected at values_fit: " ++ result3.reasoning,
          summary := "", amish_angle := "",
          content_type := some "news_article", wow_score := some result2.score }
      else
        { passed := true,
          filter_score := if result3.score = 0 then 7/10 else result3.score,
          filter_notes := "Passed all filters. Wow: " ++ result2.reasoning
            ++ ". Values: " ++ result3.reasoning,
          summary := "", amish_angle := "",
          content_type := some "news_article", wow_score := some result2.score }

/-! ## Atomic queue claim (`claim_next_article`)

`claim_next_article` runs one atomic conditional update:

    UPDATE articles SET filter_status = 'filtering'
    WHERE id = (SELECT id FROM articles
                WHERE filter_status = 'unfiltered'
                LIMIT 1 FOR UPDATE SKIP LOCKED)
    RETURNING id

`FOR UPDATE SKIP LOCKED` makes the select-and-update a single atomic
ownership transfer: concurrent executions are serialized by the row lock,
and a row selected by one transaction is skipped (not waited on) by peers.
Accordingly the shared store is modelled as a state on which claims and
commits are atomic transitions; interleavings of N workers are arbitrary
sequences of these events.  A worker's claimed-but-uncommitted articles are
tracked per worker id (= the Run id it stamps on its work). -/

/-- Shared queue state: the articles table projected to
`(article id, filter_status)`, plus, per worker, the articles it has
claimed and not yet committed. -/
structure QueueState where
  queue : List (Nat × FilterStatus)
  held : List (Nat × Nat)
deriving DecidableEq

/-- Status of an article id in the table (first row with that id). -/
def statusOf (q : List (Nat × FilterStatus)) (id : Nat) : Option FilterStatus :=
  (q.find? (fun p => p.1 = id)).map (fun p => p.2)

/-- The `UPDATE ... WHERE id = ...` write. -/
def setStatus (q : List (Nat × FilterStatus)) (id : Nat) (st : FilterStatus) :
    List (Nat × FilterStatus) :=
  q.map (fun p => if p.1 = id then (p.1, st) else p)

/-- The inner `SELECT id ... WHERE filter_status = 'unfiltered' LIMIT 1`. -/
def findUnfiltered (q : List (Nat × FilterStatus)) : Option Nat :=
  (q.find? (fun p => p.2 = FilterStatus.unfiltered)).map (fun p => p.1)

/-- `claim_next_article` executed by worker `w` as one atomic transition:
returns the claimed id (or `none` on an empty / fully-locked queue, without
erroring) and the successor state. -/
def claim_next_article (w : Nat) (s : QueueState) : Option Nat × QueueState :=
  match findUnfiltered s.queue with
  | none => (none, s)
  | some id =>
      (some id,
       { queue := setStatus s.queue id FilterStatus.filtering,
         held := (w, id) :: s.held })

/-- The worker's per-item commit: writing the final `passed`/`rejected`
status of an article it holds and releasing it. -/
def commit_article (w : Nat) (id : Nat) (final : FilterStatus) (s : QueueState) :
    QueueState :=
  if (w, id) ∈ s.held then
    { queue := setStatus s.queue id final,
      held := s.held.filter (fun p => ¬ (p = (w, id))) }
  else s

/-- One atomic store event: some worker claims, or commits an item. -/
inductive QueueEvent
  | claim (w : Nat)
  | commit (w : Nat) (id : Nat) (final : FilterStatus)

/-- Apply one event. -/
def queueStep (s : QueueState) (e : QueueEvent) : QueueState :=
  match e with
  | QueueEvent.claim w => (claim_next_article w s).2
  | QueueEvent.commit w id final => commit_article w id final s

/-- State after an arbitrary interleaving of worker events, starting from a
table `q0` with no article held by any worker. -/
def runQueue (q0 : List (Nat × FilterStatus)) (events : List QueueEvent) :
    QueueState :=
  events.foldl queueStep { queue := q0, held := [] }

/-- The claim-safety invariant: ids are unique in the table, every held
article is observed `filtering`, and no article is held by two workers. -/
def QueueInv (s : QueueState) : Prop :=
  (s.queue.map Prod.fst).Nodup ∧
  (∀ w id, (w, id) ∈ s.held → statusOf s.queue id = some FilterStatus.filtering) ∧
  (∀ w w' id, (w, id) ∈ s.held → (w', id) ∈ s.held → w = w')
/-! ### Claim-safety lemmas -/

theorem setStatus_map_fst (q : List (Nat × FilterStatus)) (id : Nat)
    (st : FilterStatus) :
    (setStatus q id st).map Prod.fst = q.map Prod.fst := by
  induction q with
  | nil => rfl
  | cons a q ih =>
      simp only [setStatus, List.map_cons] at *
      by_cases h : a.1 = id
      · rw [if_pos h]; rw [ih]
      · rw [if_neg h]; rw [ih]

theorem statusOf_setStatus_self (q : List (Nat × FilterStatus)) (id : Nat)
    (st : FilterStatus) :
    statusOf (setStatus q id st) id = (statusOf q id).map (fun _ => st) := by
  induction q with
  | nil => rfl
  | cons a q ih =>
      simp only [statusOf, setStatus, List.map_cons] at *
      by_cases h : a.1 = id
      · rw [if_pos h,
          List.find?_cons_of_pos _ (by simpa using h),
          List.find?_cons_of_pos _ (by simpa using h)]
        simp
      · rw [if_neg h,
          List.find?_cons_of_neg _ (by simpa using h),
          List.find?_cons_of_neg _ (by simpa using h)]
        exact ih

theorem statusOf_setStatus_ne (q : List (Nat × FilterStatus)) (id id' : Nat)
    (st : FilterStatus) (h : id' ≠ id) :
    statusOf (setStatus q id st) id' = statusOf q id' := by
  induction q with
  | nil => rfl
  | cons a q ih =>
      simp only [statusOf, setStatus, List.map_cons] at *
      by_cases ha : a.1 = id
      · have ha' : ¬ (a.1 = id') := fun hc => h (hc ▸ ha ▸ rfl)
        rw [if_pos ha,
          List.find?_cons_of_neg _ (by simpa using ha'),
          List.find?_cons_of_neg _ (by simpa using ha')]
        exact ih
      · by_cases ha' : a.1 = id'
        · rw [if_neg ha,
            List.find?_cons_of_pos _ (by simpa using ha'),
            List.find?_cons_of_pos _ (by simpa using ha')]
        · rw [if_neg ha,
            List.find?_cons_of_neg _ (by simpa using ha'),
            List.find?_cons_of_neg _ (by simpa using ha')]
          exact ih

theorem statusOf_mem_nodup (q : List (Nat × FilterStatus))
    (h : (q.map Prod.fst).Nodup) (p : Nat × FilterStatus) (hp : p ∈ q) :
    statusOf q p.1 = some p.2 := by
  induction q with
  | nil => cases hp
  | cons a q ih =>
      rcases List.mem_cons.mp hp with h1 | h1
      · subst h1
        unfold statusOf
        rw [List.find?_cons_of_pos _ (by simp)]
        rfl
      · have h' : (a.1 :: q.map Prod.fst).Nodup := by
          simpa only [List.map_cons] using h
        have hcons := List.nodup_cons.mp h'
        have hne : ¬ (a.1 = p.1) := by
          intro hc
          exact hcons.1 (hc ▸ List.mem_map_of_mem Prod.fst h1)
        have htail := ih hcons.2 h1
        unfold statusOf at htail ⊢
        rw [List.find?_cons_of_neg _ (by simpa using hne)]
        exact htail

theorem findUnfiltered_statusOf (q : List (Nat × FilterStatus))
    (h : (q.map Prod.fst).Nodup) (id : Nat)
    (hf : findUnfiltered q = some id) :
    statusOf q id = some FilterStatus.unfiltered := by
  unfold findUnfiltered at hf
  rcases Option.map_eq_some'.mp hf with ⟨p, hp, rfl⟩
  have hmem := List.mem_of_find?_eq_some hp
  have hpred := List.find?_some hp
  have hunf : p.2 = FilterStatus.unfiltered := by simpa using hpred
  rw [statusOf_mem_nodup q h p hmem, hunf]

theorem queueInv_claim (s : QueueState) (w : Nat) (h : QueueInv s) :
    QueueInv (claim_next_article w s).2 := by
  obtain ⟨hnd, hheld, huniq⟩ := h
  rcases hf : findUnfiltered s.queue with _ | id
  · simpa [claim_next_article, hf] using And.intro hnd (And.intro hheld huniq)
  · have hunf := findUnfiltered_statusOf s.queue hnd id hf
    simp only [claim_next_article, hf]
    refine ⟨?_, ?_, ?_⟩
    · rw [setStatus_map_fst]; exact hnd
    · intro w' id' hmem
      rcases List.mem_cons.mp hmem with he | he
      · have hid : id' = id := congrArg Prod.snd he
        subst hid
        rw [statusOf_setStatus_self, hunf]
        rfl
      · have hst := hheld w' id' he
        have hne : id' ≠ id := by
          intro hc
          subst hc
          rw [hst] at hunf
          simp at hunf
        rw [statusOf_setStatus_ne _ _ _ _ hne]
        exact hst
    · intro w1 w2 id' hm1 hm2
      rcases List.mem_cons.mp hm1 with he1 | he1 <;>
        rcases List.mem_cons.mp hm2 with he2 | he2
      · have hw1 : w1 = w := congrArg Prod.fst he1
        have hw2 : w2 = w := congrArg Prod.fst he2
        rw [hw1, hw2]
      · exfalso
        have hid : id' = id := congrArg Prod.snd he1
        subst hid
        have hst := hheld w2 id' he2
        rw [hst] at hunf
        simp at hunf
      · exfalso
        have hid : id' = id := congrArg Prod.snd he2
        subst hid
        have hst := hheld w1 id' he1
        rw [hst] at hunf
        simp at hunf
      · exact huniq w1 w2 id' he1 he2

theorem queueInv_commit (s : QueueState) (w id : Nat) (final : FilterStatus)
    (h : QueueInv s) : QueueInv (commit_article w id final s) := by
  obtain ⟨hnd, hheld, huniq⟩ := h
  unfold commit_article
  by_cases hm : (w, id) ∈ s.held
  · rw [if_pos hm]
    refine ⟨?_, ?_, ?_⟩
    · rw [setStatus_map_fst]; exact hnd
    · intro w' id' hmem
      have hmem' := List.mem_filter.mp hmem
      have hin : (w', id') ∈ s.held := hmem'.1
      have hne_pair : ¬ ((w', id') = (w, id)) := of_decide_eq_true hmem'.2
      have hne : id' ≠ id := by
        intro hc
        subst hc
        exact hne_pair (by rw [huniq w' w id' hin hm])
      rw [statusOf_setStatus_ne _ _ _ _ hne]
      exact hheld w' id' hin
    · intro w1 w2 id' h1 h2
      exact huniq w1 w2 id' (List.mem_filter.mp h1).1 (List.mem_filter.mp h2).1
  · rw [if_neg hm]
    exact ⟨hnd, hheld, huniq⟩

theorem queueInv_step (s : QueueState) (e : QueueEvent) (h : QueueInv s) :
    QueueInv (queueStep s e) := by
  cases e with
  | claim w => exact queueInv_claim s w h
  | commit w id final => exact queueInv_commit s w id final h

theorem queueInv_foldl (events : List QueueEvent) (s : QueueState)
    (h : QueueInv s) : QueueInv (events.foldl queueStep s) := by
  induction events generalizing s with
  | nil => exact h
  | cons e es ih => exact ih _ (queueInv_step s e h)

theorem queueInv_runQueue (q0 : List (Nat × FilterStatus))
    (h0 : (q0.map Prod.fst).Nodup) (events : List QueueEvent) :
    QueueInv (runQueue q0 events) := by
  refine queueInv_foldl events _ ⟨h0, ?_, ?_⟩
  · intro w id h
    cases h
  · intro w w' id h
    cases h

theorem claim_next_article_none (w : Nat) (s : QueueState)
    (h : ∀ p ∈ s.queue, p.2 ≠ FilterStatus.unfiltered) :
    claim_next_article w s = (none, s) := by
  have hfind : findUnfiltered s.queue = none := by
    unfold findUnfiltered
    rw [List.find?_eq_none.mpr ?_]
    · rfl
    · intro p hp
      simpa using h p hp
  unfold claim_next_article
  rw [hfind]

/-! ### Text-layer lemmas -/

theorem dropWhile_replicate_append (p : Char → Bool) (a : Char) (h : p a = true)
    (n : Nat) (l : List Char) :
    List.dropWhile p (List.replicate n a ++ l) = List.dropWhile p l := by
  induction n with
  | zero => simp
  | succ n ih => simp [List.replicate_succ, List.dropWhile_cons, h, ih]

theorem dropWhile_cons_neg (p : Char → Bool) (x : Char) (xs : List Char)
    (h : p x = false) : List.dropWhile p (x :: xs) = x :: xs := by
  simp [List.dropWhile_cons, h]

theorem TRUNCATION_SUFFIX_length : TRUNCATION_SUFFIX.length = 24 := by decide

/-- Content of the C10 counterexample: 49 letters followed by 8000 spaces
(8049 characters; strips to 49 characters, yet its truncation strips to
8024 characters). -/
def C10content : List Char := List.replicate 49 'a' ++ List.replicate 8000 ' '

/-- The truncation of `C10content`. -/
def C10trunc : List Char :=
  List.replicate 49 'a' ++ (List.replicate 7951 ' ' ++ TRUNCATION_SUFFIX)

theorem C10content_strip : pyStrip C10content = List.replicate 49 'a' := by
  have hcons : C10content = 'a' ::
      (List.replicate 48 'a' ++ List.replicate 8000 ' ') := by
    rw [C10content, show (49 : Nat) = 48 + 1 from rfl, List.replicate_succ,
      List.cons_append]
  have h1 : List.dropWhile pyIsSpace C10content = C10content := by
    rw [hcons]
    exact dropWhile_cons_neg _ _ _ (by decide)
  have h2 : C10content.reverse =
      List.replicate 8000 ' ' ++ List.replicate 49 'a' := by
    rw [C10content, List.reverse_append, List.reverse_replicate,
      List.reverse_replicate]
  have h3 : List.dropWhile pyIsSpace (C10content.reverse) =
      List.replicate 49 'a' := by
    rw [h2, dropWhile_replicate_append pyIsSpace ' ' (by decide)]
    rw [show (49 : Nat) = 48 + 1 from rfl, List.replicate_succ]
    exact dropWhile_cons_neg _ _ _ (by decide)
  rw [pyStrip, h1, h3, List.reverse_replicate]

theorem C10content_strip_length : (pyStrip C10content).length = 49 := by
  rw [C10content_strip, List.length_replicate]

theorem C10content_truncate : truncate_content C10content = C10trunc := by
  have hlen : C10content.length = 8049 := by
    rw [C10content, List.length_append, List.length_replicate,
      List.length_replicate]
  rw [truncate_content, if_neg (by rw [hlen]; decide)]
  rw [C10content, CONTENT_LIMIT, List.take_append_eq_append_take,
    List.take_of_length_le (by rw [List.length_replicate]; norm_num),
    List.take_replicate, List.length_replicate]
  rw [C10trunc, List.append_assoc]
  norm_num

theorem C10trunc_length : C10trunc.length = 8024 := by
  rw [C10trunc, List.length_append, List.length_append,
    List.length_replicate, List.length_replicate, TRUNCATION_SUFFIX_length]

theorem C10trunc_strip : pyStrip C10trunc = C10trunc := by
  have hcons : C10trunc = 'a' ::
      (List.replicate 48 'a' ++ (List.replicate 7951 ' ' ++ TRUNCATION_SUFFIX)) := by
    rw [C10trunc, show (49 : Nat) = 48 + 1 from rfl, List.replicate_succ,
      List.cons_append]
  have h1 : List.dropWhile pyIsSpace C10trunc = C10trunc := by
    rw [hcons]
    exact dropWhile_cons_neg _ _ _ (by decide)
  have hsufrev : TRUNCATION_SUFFIX.reverse =
      ']' :: ("...detacnurt tnetnoC[\n\n" : String).data := by decide
  have h2 : C10trunc.reverse =
      ']' :: (("...detacnurt tnetnoC[\n\n" : String).data ++
        (List.replicate 7951 ' ' ++ List.replicate 49 'a')) := by
    rw [C10trunc, List.reverse_append, List.reverse_append, hsufrev,
      List.reverse_replicate, List.reverse_replicate, List.cons_append,
      List.cons_append, List.append_assoc]
  have h3 : List.dropWhile pyIsSpace (C10trunc.reverse) = C10trunc.reverse := by
    rw [h2]
    exact dropWhile_cons_neg _ _ _ (by decide)
  rw [pyStrip, h1, h3, List.reverse_reverse]

/-! ### Sample data for concrete evaluations -/

/-- A 60-letter content sample: long enough to pass the
insufficient-content gate of News Check. -/
def sampleContent : List Char := List.replicate 60 'a'

/-- A sample stage input. -/
def sampleArticleData : ArticleData :=
  { url := "https://x/1", title := "Barn raising draws 200 volunteers",
    content := sampleContent }

/-- A sample claimed article as the worker sees it. -/
def sampleArticle : Article :=
  { external_url := "https://x/1",
    headline := "Barn raising draws 200 volunteers",
    raw_content := some sampleContent,
    filter_status := FilterStatus.filtering,
    status := ArticleStatus.pending,
    filter_score := none, filter_notes := none, content_type := none,
    wow_score := none, last_run_id := none }

/-- Environment whose three judges give the same outcome on every attempt. -/
def mkEnv (news : Except String NewsJudgeResponse)
    (wow values : Except String ScoreJudgeResponse) : JudgeEnv :=
  { newsOracle := fun _ => news, wowOracle := fun _ => wow,
    valuesOracle := fun _ => values,
    newsLatency := 11, wowLatency := 12, valuesLatency := 13 }

/-! ### Stage score bounds -/

theorem filter_wow_factor_score_bounds (a : ArticleData) (t : ℚ)
    (oracle : Nat → Except String ScoreJudgeResponse) (lat : Nat) :
    0 ≤ (filter_wow_factor a t oracle lat).score ∧
    (filter_wow_factor a t oracle lat).score ≤ 1 := by
  unfold filter_wow_factor
  cases h : oracle 0 with
  | ok r =>
      simp only [h]
      exact ⟨le_max_left 0 _, max_le zero_le_one (min_le_left 1 r.score)⟩
  | error e =>
      simp only [h]
      exact ⟨le_refl 0, zero_le_one⟩

theorem filter_values_fit_score_bounds (a : ArticleData) (t : ℚ)
    (oracle : Nat → Except String ScoreJudgeResponse) (lat : Nat) :
    0 ≤ (filter_values_fit a t oracle lat).score ∧
    (filter_values_fit a t oracle lat).score ≤ 1 := by
  unfold filter_values_fit
  cases h : oracle 0 with
  | ok r =>
      simp only [h]
      exact ⟨le_max_left 0 _, max_le zero_le_one (min_le_left 1 r.score)⟩
  | error e =>
      simp only [h]
      exact ⟨le_refl 0, zero_le_one⟩

/-! ### Pass-count monotonicity lemmas -/

theorem update_pass_counts_mono (c : Nat × Nat × Nat) (p : Bool)
    (rs : Option String) (h : c.2.1 ≤ c.1 ∧ c.2.2 ≤ c.2.1) :
    (update_pass_counts c p rs).2.1 ≤ (update_pass_counts c p rs).1 ∧
    (update_pass_counts c p rs).2.2 ≤ (update_pass_counts c p rs).2.1 := by
  obtain ⟨h1, h2⟩ := h
  unfold update_pass_counts
  cases p with
  | true =>
      rw [if_pos rfl]
      exact ⟨Nat.succ_le_succ h1, Nat.succ_le_succ h2⟩
  | false =>
      rw [if_neg (by simp)]
      split_ifs with hA hB hB
      · exact ⟨h1, h2⟩
      · exact absurd (hA.elim Or.inl (fun hx => Or.inr (Or.inl hx))) hB
      · exact ⟨Nat.le_succ_of_le h1, h2⟩
      · exact ⟨Nat.succ_le_succ h1, Nat.le_succ_of_le h2⟩

theorem run_worker_counts_foldl (outcomes : List (Bool × Option String))
    (c : Nat × Nat × Nat) (h : c.2.1 ≤ c.1 ∧ c.2.2 ≤ c.2.1) :
    (outcomes.foldl (fun c o => update_pass_counts c o.1 o.2) c).2.1 ≤
      (outcomes.foldl (fun c o => update_pass_counts c o.1 o.2) c).1 ∧
    (outcomes.foldl (fun c o => update_pass_counts c o.1 o.2) c).2.2 ≤
      (outcomes.foldl (fun c o => update_pass_counts c o.1 o.2) c).2.1 := by
  induction outcomes generalizing c with
  | nil => exact h
  | cons o os ih => exact ih _ (update_pass_counts_mono c o.1 o.2 h)

theorem pipeline_article_delta_mono (a : ArticleData) (env : JudgeEnv)
    (w v : ℚ) :
    (pipeline_article_delta a env w v).2.1 ≤ (pipeline_article_delta a env w v).1 ∧
    (pipeline_article_delta a env w v).2.2 ≤ (pipeline_article_delta a env w v).2.1 := by
  simp only [pipeline_article_delta]
  split_ifs <;> decide

theorem run_pipeline_counts_foldl (items : List (ArticleData × JudgeEnv))
    (w v : ℚ) (c : Nat × Nat × Nat) (h : c.2.1 ≤ c.1 ∧ c.2.2 ≤ c.2.1) :
    (items.foldl (fun c item =>
        let d := pipeline_article_delta item.1 item.2 w v
        (c.1 + d.1, c.2.1 + d.2.1, c.2.2 + d.2.2)) c).2.1 ≤
      (items.foldl (fun c item =>
        let d := pipeline_article_delta item.1 item.2 w v
        (c.1 + d.1, c.2.1 + d.2.1, c.2.2 + d.2.2)) c).1 ∧
    (items.foldl (fun c item =>
        let d := pipeline_article_delta item.1 item.2 w v
        (c.1 + d.1, c.2.1 + d.2.1, c.2.2 + d.2.2)) c).2.2 ≤
      (items.foldl (fun c item =>
        let d := pipeline_article_delta item.1 item.2 w v
        (c.1 + d.1, c.2.1 + d.2.1, c.2.2 + d.2.2)) c).2.1 := by
  induction items generalizing c with
  | nil => exact h
  | cons item items ih =>
      have hd := pipeline_article_delta_mono item.1 item.2 w v
      exact ih _ ⟨Nat.add_le_add h.1 hd.1, Nat.add_le_add h.2 hd.2⟩

/-! ## Claim theorems -/

/-- **C2**: For every Run whose pass counters have been written — by the
worker loop's bookkeeping (`run_worker_counts`, written after every batch
and at finalization) or by `run_pipeline`'s batch counters
(`run_pipeline_counts`) — the funnel is monotone:
`filter1_pass_count ≥ filter2_pass_count ≥ filter3_pass_count`, regardless
of which stages rejected (or raised: the worker's error rejection stages
`news_check_error` / `wow_factor_error` / `values_fit_error` are covered by
the universally quantified outcome list). -/
theorem run_counts_monotone :
    (∀ outcomes : List (Bool × Option String),
      (run_worker_counts outcomes).2.1 ≤ (run_worker_counts outcomes).1 ∧
      (run_worker_counts outcomes).2.2 ≤ (run_worker_counts outcomes).2.1) ∧
    (∀ (items : List (ArticleData × JudgeEnv)) (w v : ℚ),
      (run_pipeline_counts items w v).2.1 ≤ (run_pipeline_counts items w v).1 ∧
      (run_pipeline_counts items w v).2.2 ≤ (run_pipeline_counts items w v).2.1) := by
  constructor
  · intro outcomes
    exact run_worker_counts_foldl outcomes (0, 0, 0) ⟨le_refl 0, le_refl 0⟩
  · intro items w v
    exact run_pipeline_counts_foldl items w v (0, 0, 0) ⟨le_refl 0, le_refl 0⟩

/-- **C8** counterexample: an 8001-character content truncates to 8024
characters — `truncate_content` appends a 24-character marker after the
8000-character cut, so its output exceeds the stated budget. -/
theorem truncate_content_exceeds_limit_cex :
    (truncate_content (List.replicate 8001 'a')).length = 8024 ∧
    ¬ ((truncate_content (List.replicate 8001 'a')).length ≤ CONTENT_LIMIT) := by
  have h : (truncate_content (List.replicate 8001 'a')).length = 8024 := by
    rw [truncate_content, if_neg (by rw [List.length_replicate]; decide)]
    rw [List.length_append, List.length_take, List.length_replicate,
      TRUNCATION_SUFFIX_length]
    decide
  exact ⟨h, by rw [h]; decide⟩

/-- **C8** (amended): content within the 8000-character budget is submitted
unchanged; longer content is cut to exactly the budget plus the fixed
24-character truncation marker, so the submitted text never exceeds 8024
characters (but can exceed 8000). -/
theorem truncate_content_length_bound (c : List Char) :
    (truncate_content c).length ≤ CONTENT_LIMIT + 24 ∧
    (c.length ≤ CONTENT_LIMIT → truncate_content c = c) ∧
    (CONTENT_LIMIT < c.length →
      (truncate_content c).length = CONTENT_LIMIT + 24) := by
  by_cases h : c.length ≤ CONTENT_LIMIT
  · have he : truncate_content c = c := by rw [truncate_content, if_pos h]
    refine ⟨?_, fun _ => he, fun h' => absurd h (not_le.mpr h')⟩
    rw [he]
    exact h.trans (Nat.le_add_right _ _)
  · have he : (truncate_content c).length = CONTENT_LIMIT + 24 := by
      rw [truncate_content, if_neg h, List.length_append, List.length_take,
        TRUNCATION_SUFFIX_length,
        Nat.min_eq_left (le_of_lt (not_le.mp h))]
    exact ⟨le_of_eq he, fun hc => absurd hc h, fun _ => he⟩

/-- Witness for `truncate_content_length_bound` at a short and a long
concrete content. -/
theorem truncate_content_length_bound_witness :
    ((List.replicate 60 'a').length ≤ CONTENT_LIMIT ∧
      truncate_content (List.replicate 60 'a') = List.replicate 60 'a') ∧
    (CONTENT_LIMIT < (List.replicate 8001 'a').length ∧
      (truncate_content (List.replicate 8001 'a')).length = CONTENT_LIMIT + 24) :=
  ⟨⟨by decide, (truncate_content_length_bound _).2.1 (by decide)⟩,
   ⟨by rw [List.length_replicate]; decide,
    (truncate_content_length_bound _).2.2 (by rw [List.length_replicate]; decide)⟩⟩

/-- **C9**: after any interleaving of atomic claims and commits by any
number of workers against a shared table with unique article ids, no
article is ever held in the `filtering` state by two different workers
(Run ids); held articles are observed `filtering`; and a claim against a
queue with no `unfiltered` row (empty or fully locked by peers) returns
`none` and leaves the state unchanged, rather than erroring. -/
theorem claim_at_most_one_holder (q0 : List (Nat × FilterStatus))
    (events : List QueueEvent) (h0 : (q0.map Prod.fst).Nodup) :
    (∀ w w' id, (w, id) ∈ (runQueue q0 events).held →
        (w', id) ∈ (runQueue q0 events).held → w = w') ∧
    (∀ w id, (w, id) ∈ (runQueue q0 events).held →
        statusOf (runQueue q0 events).queue id = some FilterStatus.filtering) ∧
    (∀ (w : Nat) (s : QueueState),
        (∀ p ∈ s.queue, p.2 ≠ FilterStatus.unfiltered) →
        claim_next_article w s = (none, s)) := by
  obtain ⟨hnd, hheld, huniq⟩ := queueInv_runQueue q0 h0 events
  exact ⟨huniq, hheld, fun w s h => claim_next_article_none w s h⟩

/-- Witness for `claim_at_most_one_holder`: two workers race two claims on
a two-row queue. -/
theorem claim_at_most_one_holder_witness :
    (([((1 : Nat), FilterStatus.unfiltered),
       ((2 : Nat), FilterStatus.unfiltered)].map Prod.fst).Nodup) ∧
    (∀ w w' id,
      (w, id) ∈ (runQueue
          [(1, FilterStatus.unfiltered), (2, FilterStatus.unfiltered)]
          [QueueEvent.claim 10, QueueEvent.claim 20]).held →
      (w', id) ∈ (runQueue
          [(1, FilterStatus.unfiltered), (2, FilterStatus.unfiltered)]
          [QueueEvent.claim 10, QueueEvent.claim 20]).held → w = w') :=
  ⟨by decide,
   (claim_at_most_one_holder
      [(1, FilterStatus.unfiltered), (2, FilterStatus.unfiltered)]
      [QueueEvent.claim 10, QueueEvent.claim 20] (by decide)).1⟩

/-- Environment whose News Check judge rejects (category `event_listing`). -/
def C1envReject : JudgeEnv :=
  mkEnv
    (Except.ok { is_news := false, category := "event_listing",
                 reasoning := "This is a calendar of upcoming events, not news",
                 input_tokens := 5, output_tokens := 5 })
    (Except.ok { score := 1, reasoning := "surprising", input_tokens := 1,
                 output_tokens := 1 })
    (Except.ok { score := 1, reasoning := "wholesome", input_tokens := 1,
                 output_tokens := 1 })

/-- Environment whose News Check passes but Wow Factor scores 0.15 < 0.5. -/
def C1envWowReject : JudgeEnv :=
  mkEnv
    (Except.ok { is_news := true, category := "news_article",
                 reasoning := "Reports on an event", input_tokens := 5,
                 output_tokens := 5 })
    (Except.ok { score := 0, reasoning := "routine", input_tokens := 1,
                 output_tokens := 1 })
    (Except.ok { score := 1, reasoning := "wholesome", input_tokens := 1,
                 output_tokens := 1 })

/-- **C1**: evaluation is short-circuiting.  In both the worker
(`process_article_with_tracing`) and the batch orchestrator
(`run_pipeline`'s per-article body): an item rejected at News Check gets
exactly one trace row (`news_check`) — no `wow_factor` or `values_fit`
rows — and only News Check is invoked; an item rejected at Wow Factor gets
exactly the two rows `news_check`, `wow_factor` and `values_fit` is not
invoked. -/
theorem pipeline_short_circuit (run_id : Nat) (article : Article)
    (data : ArticleData) (env : JudgeEnv) (w v : ℚ) :
    (((filter_news_check
          { url := article.external_url, title := article.headline,
            content := article.raw_content.getD [] }
          env.newsOracle env.newsLatency).passed = false →
        (process_article_with_tracing run_id article env w v).traces.map
            (fun t => t.filter_name) = ["news_check"] ∧
        (process_article_with_tracing run_id article env w v).invoked =
          ["news_check"]) ∧
      ((filter_news_check
          { url := article.external_url, title := article.headline,
            content := article.raw_content.getD [] }
          env.newsOracle env.newsLatency).passed = true →
        (filter_wow_factor
          { url := article.external_url, title := article.headline,
            content := article.raw_content.getD [] }
          w env.wowOracle env.wowLatency).passed = false →
        (process_article_with_tracing run_id article env w v).traces.map
            (fun t => t.filter_name) = ["news_check", "wow_factor"] ∧
        (process_article_with_tracing run_id article env w v).invoked =
          ["news_check", "wow_factor"])) ∧
    (((filter_news_check data env.newsOracle env.newsLatency).passed = false →
        (process_article_pipeline run_id data env w v).2.map
          (fun t => t.filter_name) = ["news_check"]) ∧
      ((filter_news_check data env.newsOracle env.newsLatency).passed = true →
        (filter_wow_factor data w env.wowOracle env.wowLatency).passed = false →
        (process_article_pipeline run_id data env w v).2.map
          (fun t => t.filter_name) = ["news_check", "wow_factor"])) := by
  refine ⟨⟨?_, ?_⟩, ?_, ?_⟩
  · intro h1
    simp [process_article_with_tracing, h1, record_trace]
  · intro h1 h2
    simp [process_article_with_tracing, h1, h2, record_trace]
  · intro h1
    simp [process_article_pipeline, h1, record_trace_pipeline]
  · intro h1 h2
    simp [process_article_pipeline, h1, h2, record_trace_pipeline]

/-- Witness for `pipeline_short_circuit`: a News Check rejection leaves one
trace row, a Wow Factor rejection two, in worker and orchestrator alike. -/
theorem pipeline_short_circuit_witness :
    ((process_article_with_tracing 1 sampleArticle C1envReject 1 1).traces.map
        (fun t => t.filter_name) = ["news_check"] ∧
      (process_article_with_tracing 1 sampleArticle C1envWowReject 1 1).traces.map
        (fun t => t.filter_name) = ["news_check", "wow_factor"]) ∧
    ((process_article_pipeline 1 sampleArticleData C1envReject 1 1).2.map
        (fun t => t.filter_name) = ["news_check"] ∧
      (process_article_pipeline 1 sampleArticleData C1envWowReject 1 1).2.map
        (fun t => t.filter_name) = ["news_check", "wow_factor"]) :=
  ⟨⟨((pipeline_short_circuit 1 sampleArticle sampleArticleData C1envReject 1 1).1.1 (by decide)).1,
    ((pipeline_short_circuit 1 sampleArticle sampleArticleData C1envWowReject 1 1).1.2 (by decide) (by decide)).1⟩,
   ⟨(pipeline_short_circuit 1 sampleArticle sampleArticleData C1envReject 1 1).2.1 (by decide),
    (pipeline_short_circuit 1 sampleArticle sampleArticleData C1envWowReject 1 1).2.2 (by decide) (by decide)⟩⟩

/-- The judge response of the clamp witness: raw score 2, clamped to 1. -/
def clampResponse : ScoreJudgeResponse :=
  { score := 2, reasoning := "strong", input_tokens := 1, output_tokens := 1 }

/-- Oracle returning `clampResponse` on every attempt. -/
def clampOracle : Nat → Except String ScoreJudgeResponse :=
  fun _ => Except.ok clampResponse

/-- Environment for the C3 witness: news passes, wow raw score 2, values
score 1. -/
def C3env : JudgeEnv :=
  mkEnv
    (Except.ok { is_news := true, category := "news_article",
                 reasoning := "news", input_tokens := 1, output_tokens := 1 })
    (Except.ok clampResponse)
    (Except.ok { score := 1, reasoning := "fits", input_tokens := 1,
                 output_tokens := 1 })

/-- **C3**: on every parsed judge response, Wow Factor and Values Fit clamp
the returned score into `[0,1]` before use and pass exactly when the
clamped score reaches the configured threshold; consequently every worker
trace row carrying a numeric score has `0 ≤ score ≤ 1` (News Check rows
carry no score; error verdicts carry score 0). -/
theorem score_clamp_and_threshold :
    (∀ (a : ArticleData) (t : ℚ) (oracle : Nat → Except String ScoreJudgeResponse)
        (lat : Nat) (r : ScoreJudgeResponse), oracle 0 = Except.ok r →
      (filter_wow_factor a t oracle lat).score = max 0 (min 1 r.score) ∧
      0 ≤ (filter_wow_factor a t oracle lat).score ∧
      (filter_wow_factor a t oracle lat).score ≤ 1 ∧
      ((filter_wow_factor a t oracle lat).passed = true ↔
        t ≤ (filter_wow_factor a t oracle lat).score)) ∧
    (∀ (a : ArticleData) (t : ℚ) (oracle : Nat → Except String ScoreJudgeResponse)
        (lat : Nat) (r : ScoreJudgeResponse), oracle 0 = Except.ok r →
      (filter_values_fit a t oracle lat).score = max 0 (min 1 r.score) ∧
      0 ≤ (filter_values_fit a t oracle lat).score ∧
      (filter_values_fit a t oracle lat).score ≤ 1 ∧
      ((filter_values_fit a t oracle lat).passed = true ↔
        t ≤ (filter_values_fit a t oracle lat).score)) ∧
    (∀ (run_id : Nat) (article : Article) (env : JudgeEnv) (w v : ℚ)
        (tr : FilterTrace) (q : ℚ),
      tr ∈ (process_article_with_tracing run_id article env w v).traces →
      tr.score = some q → 0 ≤ q ∧ q ≤ 1) := by
  refine ⟨?_, ?_, ?_⟩
  · intro a t oracle lat r h
    have hb := filter_wow_factor_score_bounds a t oracle lat
    have hs : (filter_wow_factor a t oracle lat).score = max 0 (min 1 r.score) := by
      simp only [filter_wow_factor, h]
    have hp : (filter_wow_factor a t oracle lat).passed =
        decide (t ≤ max 0 (min 1 r.score)) := by
      simp only [filter_wow_factor, h]
    refine ⟨hs, hb.1, hb.2, ?_⟩
    rw [hp, hs, decide_eq_true_eq]
  · intro a t oracle lat r h
    have hb := filter_values_fit_score_bounds a t oracle lat
    have hs : (filter_values_fit a t oracle lat).score = max 0 (min 1 r.score) := by
      simp only [filter_values_fit, h]
    have hp : (filter_values_fit a t oracle lat).passed =
        decide (t ≤ max 0 (min 1 r.score)) := by
      simp only [filter_values_fit, h]
    refine ⟨hs, hb.1, hb.2, ?_⟩
    rw [hp, hs, decide_eq_true_eq]
  · intro run_id article env w v tr q htr hq
    have hw := filter_wow_factor_score_bounds
      { url := article.external_url, title := article.headline,
        content := article.raw_content.getD [] } w env.wowOracle env.wowLatency
    have hv := filter_values_fit_score_bounds
      { url := article.external_url, title := article.headline,
        content := article.raw_content.getD [] } v env.valuesOracle env.valuesLatency
    by_cases h1 : (filter_news_check
        { url := article.external_url, title := article.headline,
          content := article.raw_content.getD [] }
        env.newsOracle env.newsLatency).passed = true
    · by_cases h2 : (filter_wow_factor
          { url := article.external_url, title := article.headline,
            content := article.raw_content.getD [] }
          w env.wowOracle env.wowLatency).passed = true
      · by_cases h3 : (filter_values_fit
            { url := article.external_url, title := article.headline,
              content := article.raw_content.getD [] }
            v env.valuesOracle env.valuesLatency).passed = true
        · simp [process_article_with_tracing, h1, h2, h3] at htr
          rcases htr with htr | htr | htr <;> subst htr <;>
            simp only [record_trace] at hq
          · cases hq
          · cases hq
            exact hw
          · cases hq
            exact hv
        · simp [process_article_with_tracing, h1, h2, h3] at htr
          rcases htr with htr | htr | htr <;> subst htr <;>
            simp only [record_trace] at hq
          · cases hq
          · cases hq
            exact hw
          · cases hq
            exact hv
      · simp [process_article_with_tracing, h1, h2] at htr
        rcases htr with htr | htr <;> subst htr <;>
          simp only [record_trace] at hq
        · cases hq
        · cases hq
          exact hw
    · simp [process_article_with_tracing, h1] at htr
      subst htr
      simp only [record_trace] at hq
      cases hq

/-- The wow-factor trace row of the C3 witness run. -/
def C3trace : FilterTrace :=
  { run_id := 1, article_url := "https://x/1",
    article_title := "Barn raising draws 200 volunteers",
    filter_name := "wow_factor", filter_order := 2, decision := "pass",
    score := some 1, reasoning := "strong", input_tokens := some 1,
    output_tokens := some 1, latency_ms := some 12 }

/-- Witness for `score_clamp_and_threshold`: a raw judge score of 2 is
clamped to `max 0 (min 1 2) = 1`, and the wow trace row of a concrete
worker run carries the in-range score 1. -/
theorem score_clamp_and_threshold_witness :
    (clampOracle 0 = Except.ok clampResponse ∧
      (filter_wow_factor sampleArticleData 1 clampOracle 9).score =
        max 0 (min 1 clampResponse.score)) ∧
    (C3trace ∈ (process_article_with_tracing 1 sampleArticle C3env 1 1).traces ∧
      C3trace.score = some 1 ∧
      0 ≤ (1 : ℚ) ∧ (1 : ℚ) ≤ 1) :=
  ⟨⟨rfl, (score_clamp_and_threshold.1 sampleArticleData 1 clampOracle 9
      clampResponse rfl).1⟩,
   ⟨by decide, by decide,
    score_clamp_and_threshold.2.2 1 sampleArticle C3env 1 1 C3trace 1
      (by decide) (by decide)⟩⟩

/-- Attempt-indexed oracle: the first judge call fails with a timeout, a
second call (which the code never makes) would return a passing score. -/
def C4oracle : Nat → Except String ScoreJudgeResponse :=
  fun k => if k = 0 then Except.error "Request timed out"
    else Except.ok { score := 1, reasoning := "strong story",
                     input_tokens := 100, output_tokens := 20 }

/-- A news judge oracle that always raises. -/
def C4newsOracle : Nat → Except String NewsJudgeResponse :=
  fun _ => Except.error "Connection reset by peer"

/-- **C4** counterexample: the first judge call times out and the next
attempt would return score 1 ≥ threshold; a stage that retried before
rejecting would pass this item, but the stage returns the definitive
rejection immediately — no retry of any kind happens in the stage code. -/
theorem stage_error_no_retry_cex :
    C4oracle 1 = Except.ok { score := 1, reasoning := "strong story",
                             input_tokens := 100, output_tokens := 20 } ∧
    (1 : ℚ) ≤ max 0 (min 1 (1 : ℚ)) ∧
    (filter_wow_factor sampleArticleData 1 C4oracle 30).passed = false ∧
    (filter_wow_factor sampleArticleData 1 C4oracle 30).score = 0 ∧
    (filter_wow_factor sampleArticleData 1 C4oracle 30).reasoning =
      "Filter error: Request timed out" :=
  ⟨rfl, by decide, by decide, by decide, by decide⟩

/-- **C4** (amended): each stage makes exactly one judge call — its result
depends only on attempt 0, so no retry/backoff happens in the repository's
stage code (any transport-level retry lives inside the external client
library) — and a failed call is converted immediately into a definitive
rejection Verdict: `passed = false`, score 0 (News Check carries no score
field; its category is forced to `other_non_news`), reasoning
`"Filter error: <detail>"`; the stage functions never raise. -/
theorem stage_error_single_attempt :
    (∀ (a : ArticleData) (t : ℚ) (o o' : Nat → Except String ScoreJudgeResponse)
        (lat : Nat), o 0 = o' 0 →
      filter_wow_factor a t o lat = filter_wow_factor a t o' lat ∧
      filter_values_fit a t o lat = filter_values_fit a t o' lat) ∧
    (∀ (a : ArticleData) (o o' : Nat → Except String NewsJudgeResponse)
        (lat : Nat), o 0 = o' 0 →
      filter_news_check a o lat = filter_news_check a o' lat) ∧
    (∀ (a : ArticleData) (t : ℚ) (o : Nat → Except String ScoreJudgeResponse)
        (lat : Nat) (e : String), o 0 = Except.error e →
      filter_wow_factor a t o lat =
        { passed := false, score := 0, reasoning := "Filter error: " ++ e,
          input_tokens := some 0, output_tokens := some 0,
          latency_ms := some lat } ∧
      filter_values_fit a t o lat =
        { passed := false, score := 0, reasoning := "Filter error: " ++ e,
          input_tokens := some 0, output_tokens := some 0,
          latency_ms := some lat }) ∧
    (∀ (a : ArticleData) (o : Nat → Except String NewsJudgeResponse)
        (lat : Nat) (e : String), o 0 = Except.error e →
      (filter_news_check a o lat).passed = false ∧
      (((truncate_content a.content).isEmpty ||
          decide ((pyStrip (truncate_content a.content)).length < 50)) = false →
        filter_news_check a o lat =
          { passed := false, category := "other_non_news",
            reasoning := "Filter error: " ++ e, input_tokens := some 0,
            output_tokens := some 0, latency_ms := some lat })) := by
  refine ⟨?_, ?_, ?_, ?_⟩
  · intro a t o o' lat h
    constructor <;> simp only [filter_wow_factor, filter_values_fit, h]
  · intro a o o' lat h
    simp only [filter_news_check, h]
  · intro a t o lat e h
    constructor <;> simp only [filter_wow_factor, filter_values_fit, h]
  · intro a o lat e h
    constructor
    · by_cases hc : ((truncate_content a.content).isEmpty ||
          decide ((pyStrip (truncate_content a.content)).length < 50)) = true
      · simp [filter_news_check, hc]
      · have hc' : ((truncate_content a.content).isEmpty ||
            decide ((pyStrip (truncate_content a.content)).length < 50)) = false := by
          simpa using hc
        simp [filter_news_check, hc', h]
    · intro hc
      simp [filter_news_check, hc, h]

/-- Witness for `stage_error_single_attempt`: `C4oracle` agrees at attempt 0
with the always-failing oracle and yields the same verdict; failing calls
yield exactly the documented rejection records. -/
theorem stage_error_single_attempt_witness :
    (C4oracle 0 =
        (fun _ => (Except.error "Request timed out" :
          Except String ScoreJudgeResponse)) 0 ∧
      filter_wow_factor sampleArticleData 1 C4oracle 30 =
        filter_wow_factor sampleArticleData 1
          (fun _ => Except.error "Request timed out") 30) ∧
    (C4oracle 0 = Except.error "Request timed out" ∧
      filter_wow_factor sampleArticleData 1 C4oracle 30 =
        { passed := false, score := 0,
          reasoning := "Filter error: Request timed out",
          input_tokens := some 0, output_tokens := some 0,
          latency_ms := some 30 }) ∧
    (C4newsOracle 0 = Except.error "Connection reset by peer" ∧
      (filter_news_check sampleArticleData C4newsOracle 30).passed = false ∧
      (((truncate_content sampleArticleData.content).isEmpty ||
          decide ((pyStrip (truncate_content sampleArticleData.content)).length < 50)) = false ∧
        filter_news_check sampleArticleData C4newsOracle 30 =
          { passed := false, category := "other_non_news",
            reasoning := "Filter error: Connection reset by peer",
            input_tokens := some 0, output_tokens := some 0,
            latency_ms := some 30 })) :=
  ⟨⟨rfl, (stage_error_single_attempt.1 sampleArticleData 1 C4oracle
      (fun _ => Except.error "Request timed out") 30 rfl).1⟩,
   ⟨rfl, (stage_error_single_attempt.2.2.1 sampleArticleData 1 C4oracle 30
      "Request timed out" rfl).1⟩,
   ⟨rfl, (stage_error_single_attempt.2.2.2 sampleArticleData C4newsOracle 30
      "Connection reset by peer" rfl).1,
    by decide,
    (stage_error_single_attempt.2.2.2 sampleArticleData C4newsOracle 30
      "Connection reset by peer" rfl).2 (by decide)⟩⟩

/-- A judge response whose `is_news` flag and `category` disagree. -/
def C5response : NewsJudgeResponse :=
  { is_news := true, category := "event_listing",
    reasoning := "flagged as news despite listing category",
    input_tokens := 9, output_tokens := 3 }

/-- **C5** counterexample: the judge replies `is_news = true` with category
`event_listing`; the stage passes although the judged content type is not
`news_article`, so "passes iff the category is news_article" fails — the
pass decision reads only the `is_news` boolean. -/
theorem news_check_category_cex :
    (filter_news_check sampleArticleData (fun _ => Except.ok C5response) 7).passed
        = true ∧
    (filter_news_check sampleArticleData (fun _ => Except.ok C5response) 7).category
        ≠ "news_article" := by decide

/-- **C5** (amended): on a parsed judge response (with content surviving
the insufficient-content gate) News Check passes exactly when the judge's
`is_news` flag is true; the returned category is recorded as the content
type but does not gate the decision.  An item rejected at News Check has
its filter score forced to 0 by the worker. -/
theorem news_check_passes_iff_is_news :
    (∀ (a : ArticleData) (o : Nat → Except String NewsJudgeResponse)
        (lat : Nat) (r : NewsJudgeResponse), o 0 = Except.ok r →
      ((truncate_content a.content).isEmpty ||
        decide ((pyStrip (truncate_content a.content)).length < 50)) = false →
      (filter_news_check a o lat).passed = r.is_news ∧
      (filter_news_check a o lat).category = r.category) ∧
    (∀ (run_id : Nat) (article : Article) (env : JudgeEnv) (w v : ℚ),
      (process_article_with_tracing run_id article env w v).rejection_stage =
        some "news_check" →
      (process_article_with_tracing run_id article env w v).article.filter_score =
        some 0) := by
  constructor
  · intro a o lat r h hc
    constructor <;> simp only [filter_news_check, h, hc] <;> rfl
  · intro run_id article env w v hrs
    by_cases h1 : (filter_news_check
        { url := article.external_url, title := article.headline,
          content := article.raw_content.getD [] }
        env.newsOracle env.newsLatency).passed = true
    · exfalso
      by_cases h2 : (filter_wow_factor
          { url := article.external_url, title := article.headline,
            content := article.raw_content.getD [] }
          w env.wowOracle env.wowLatency).passed = true
      · by_cases h3 : (filter_values_fit
            { url := article.external_url, title := article.headline,
              content := article.raw_content.getD [] }
            v env.valuesOracle env.valuesLatency).passed = true
        · simp [process_article_with_tracing, h1, h2, h3] at hrs
        · simp [process_article_with_tracing, h1, h2, h3] at hrs
      · simp [process_article_with_tracing, h1, h2] at hrs
    · simp [process_article_with_tracing, h1]

/-- Witness for `news_check_passes_iff_is_news`: the counterexample
response makes the stage's pass flag track `is_news`, and a worker run
rejected at News Check ends with filter score 0. -/
theorem news_check_passes_iff_is_news_witness :
    ((fun _ => Except.ok C5response :
        Nat → Except String NewsJudgeResponse) 0 = Except.ok C5response ∧
      ((truncate_content sampleArticleData.content).isEmpty ||
        decide ((pyStrip (truncate_content sampleArticleData.content)).length < 50))
        = false ∧
      (filter_news_check sampleArticleData (fun _ => Except.ok C5response) 7).passed
        = C5response.is_news) ∧
    ((process_article_with_tracing 1 sampleArticle C1envReject 1 1).rejection_stage
        = some "news_check" ∧
      (process_article_with_tracing 1 sampleArticle C1envReject 1 1).article.filter_score
        = some 0) :=
  ⟨⟨rfl, by decide,
    (news_check_passes_iff_is_news.1 sampleArticleData
      (fun _ => Except.ok C5response) 7 C5response rfl (by decide)).1⟩,
   ⟨by decide,
    news_check_passes_iff_is_news.2 1 sampleArticle C1envReject 1 1 (by decide)⟩⟩

/-- Environment for the C6 counterexample: news passes, wow score 1, values
score 0 — which passes when the values threshold is configured to 0. -/
def C6env : JudgeEnv :=
  mkEnv
    (Except.ok { is_news := true, category := "news_article",
                 reasoning := "news", input_tokens := 1, output_tokens := 1 })
    (Except.ok { score := 1, reasoning := "wow", input_tokens := 1,
                 output_tokens := 1 })
    (Except.ok { score := 0, reasoning := "neutral", input_tokens := 1,
                 output_tokens := 1 })

/-- **C6** counterexample: with the values threshold configured to 0 the
judge's values score 0.0 passes, and `run_pipeline_for_article` sets
`filter_score = result3.score or 0.7` — Python's `or` treats the score 0.0
as falsy — so the final filter score is 0.7, not the Values Fit score 0. -/
theorem filter_score_or_default_cex :
    (filter_values_fit
        { url := sampleArticle.external_url, title := sampleArticle.headline,
          content := sampleArticle.raw_content.getD [] }
        0 C6env.valuesOracle C6env.valuesLatency).score = 0 ∧
    (run_pipeline_for_article sampleArticle C6env 0 0).passed = true ∧
    (run_pipeline_for_article sampleArticle C6env 0 0).filter_score = 7/10 ∧
    (7 : ℚ)/10 ≠ 0 := by
  refine ⟨by decide, by decide, rfl, by norm_num⟩

/-- **C6** (amended): the worker's final item mutation sets the filter
score to 0 on a News Check or Wow Factor rejection and to the Values Fit
score whenever stage 3 ran (rejection at Values Fit or full pass).  The
single-article entry point `run_pipeline_for_article` behaves the same
except on a full pass whose Values Fit score is exactly 0 (possible only
with a non-positive values threshold), where it substitutes the default
0.7. -/
theorem final_filter_score (run_id : Nat) (article : Article) (env : JudgeEnv)
    (w v : ℚ) :
    ((process_article_with_tracing run_id article env w v).rejection_stage =
        some "news_check" →
      (process_article_with_tracing run_id article env w v).article.filter_score =
        some 0) ∧
    ((process_article_with_tracing run_id article env w v).rejection_stage =
        some "wow_factor" →
      (process_article_with_tracing run_id article env w v).article.filter_score =
        some 0) ∧
    ((process_article_with_tracing run_id article env w v).rejection_stage =
        some "values_fit" →
      (process_article_with_tracing run_id article env w v).article.filter_score =
        some (filter_values_fit
          { url := article.external_url, title := article.headline,
            content := article.raw_content.getD [] }
          v env.valuesOracle env.valuesLatency).score) ∧
    ((process_article_with_tracing run_id article env w v).passed = true →
      (process_article_with_tracing run_id article env w v).article.filter_score =
        some (filter_values_fit
          { url := article.external_url, title := article.headline,
            content := article.raw_content.getD [] }
          v env.valuesOracle env.valuesLatency).score) ∧
    ((run_pipeline_for_article article env w v).passed = true →
      (run_pipeline_for_article article env w v).filter_score =
        (if (filter_values_fit
            { url := article.external_url, title := article.headline,
              content := article.raw_content.getD [] }
            v env.valuesOracle env.valuesLatency).score = 0 then 7/10
         else (filter_values_fit
            { url := article.external_url, title := article.headline,
              content := article.raw_content.getD [] }
            v env.valuesOracle env.valuesLatency).score)) := by
  by_cases h1 : (filter_news_check
      { url := article.external_url, title := article.headline,
        content := article.raw_content.getD [] }
      env.newsOracle env.newsLatency).passed = true
  · by_cases h2 : (filter_wow_factor
        { url := article.external_url, title := article.headline,
          content := article.raw_content.getD [] }
        w env.wowOracle env.wowLatency).passed = true
    · by_cases h3 : (filter_values_fit
          { url := article.external_url, title := article.headline,
            content := article.raw_content.getD [] }
          v env.valuesOracle env.valuesLatency).passed = true
      · by_cases hs : (filter_values_fit
            { url := article.external_url, title := article.headline,
              content := article.raw_content.getD [] }
            v env.valuesOracle env.valuesLatency).score = 0
        · refine ⟨?_, ?_, ?_, ?_, ?_⟩ <;> intro h <;>
            simp [process_article_with_tracing, run_pipeline_for_article,
              h1, h2, h3, hs] at h ⊢
        · refine ⟨?_, ?_, ?_, ?_, ?_⟩ <;> intro h <;>
            simp [process_article_with_tracing, run_pipeline_for_article,
              h1, h2, h3, hs] at h ⊢
      · refine ⟨?_, ?_, ?_, ?_, ?_⟩ <;> intro h <;>
          simp [process_article_with_tracing, run_pipeline_for_article,
            h1, h2, h3] at h ⊢ <;>
          by_cases hs : (filter_values_fit
              { url := article.external_url, title := article.headline,
                content := article.raw_content.getD [] }
              v env.valuesOracle env.valuesLatency).score = 0 <;>
          simp [hs]
    · refine ⟨?_, ?_, ?_, ?_, ?_⟩ <;> intro h <;>
        simp [process_article_with_tracing, run_pipeline_for_article,
          h1, h2] at h ⊢
  · refine ⟨?_, ?_, ?_, ?_, ?_⟩ <;> intro h <;>
      simp [process_article_with_tracing, run_pipeline_for_article, h1] at h ⊢

/-- Witness for `final_filter_score`: a News Check rejection ends at score
0; a full pass ends at the Values Fit score in the worker; and the
single-article entry point substitutes 0.7 for a passing Values Fit score
of 0. -/
theorem final_filter_score_witness :
    ((process_article_with_tracing 1 sampleArticle C1envReject 1 1).rejection_stage
        = some "news_check" ∧
      (process_article_with_tracing 1 sampleArticle C1envReject 1 1).article.filter_score
        = some 0) ∧
    ((process_article_with_tracing 1 sampleArticle C3env 1 1).passed = true ∧
      (process_article_with_tracing 1 sampleArticle C3env 1 1).article.filter_score =
        some (filter_values_fit
          { url := sampleArticle.external_url, title := sampleArticle.headline,
            content := sampleArticle.raw_content.getD [] }
          1 C3env.valuesOracle C3env.valuesLatency).score) ∧
    ((run_pipeline_for_article sampleArticle C6env 0 0).passed = true ∧
      (run_pipeline_for_article sampleArticle C6env 0 0).filter_score =
        (if (filter_values_fit
            { url := sampleArticle.external_url, title := sampleArticle.headline,
              content := sampleArticle.raw_content.getD [] }
            0 C6env.valuesOracle C6env.valuesLatency).score = 0 then 7/10
         else (filter_values_fit
            { url := sampleArticle.external_url, title := sampleArticle.headline,
              content := sampleArticle.raw_content.getD [] }
            0 C6env.valuesOracle C6env.valuesLatency).score)) :=
  ⟨⟨by decide,
    (final_filter_score 1 sampleArticle C1envReject 1 1).1 (by decide)⟩,
   ⟨by decide,
    (final_filter_score 1 sampleArticle C3env 1 1).2.2.2.1 (by decide)⟩,
   ⟨by decide,
    (final_filter_score 1 sampleArticle C6env 0 0).2.2.2.2 (by decide)⟩⟩

/-- A news judge response rejecting with empty reasoning text. -/
def C7response : NewsJudgeResponse :=
  { is_news := false, category := "event_listing", reasoning := "",
    input_tokens := 4, output_tokens := 2 }

/-- Environment for the C7 counterexample. -/
def C7env : JudgeEnv :=
  mkEnv (Except.ok C7response)
    (Except.ok { score := 1, reasoning := "wow", input_tokens := 1,
                 output_tokens := 1 })
    (Except.ok { score := 1, reasoning := "fits", input_tokens := 1,
                 output_tokens := 1 })

/-- **C7** counterexample: when the judge rejects with empty reasoning
text, the worker records a `reject` trace row whose reasoning is the empty
string — nothing enforces non-emptiness on the judge-decision path. -/
theorem reject_reasoning_empty_cex :
    (process_article_with_tracing 1 sampleArticle C7env 1 1).traces.map
      (fun t => (t.decision, t.reasoning)) = [("reject", "")] := by decide

/-- `"Filter error: " ++ e` is never the empty string. -/
theorem filter_error_reasoning_ne (e : String) :
    ("Filter error: " ++ e) ≠ "" := by
  intro h
  have hd := congrArg String.data h
  rw [String.data_append] at hd
  exact List.cons_ne_nil _ _ (List.append_eq_nil.mp hd).1

/-- A Python slice `s[:n]` of a non-empty string with `n ≠ 0` is
non-empty. -/
theorem pyTake_ne_empty (s : String) (n : Nat) (hn : n ≠ 0) (h : s ≠ "") :
    pyTake s n ≠ "" := by
  intro hc
  apply h
  have hd : (pyTake s n).data = ("" : String).data := congrArg String.data hc
  have hd' : s.data.take n = [] := by
    simpa [pyTake] using hd
  rcases List.take_eq_nil_iff.mp hd' with h0 | hnil
  · exact absurd h0 hn
  · exact String.ext (by rw [hnil])

/-- **C7** (amended): reject reasoning is non-empty on the judge-error and
insufficient-content paths for all three stages, and `record_trace`
preserves non-emptiness — so a `reject` Trace row has empty reasoning only
when the judge itself returned an empty reasoning string, which the code
does not rule out. -/
theorem reject_reasoning_nonempty :
    (∀ (a : ArticleData) (t : ℚ) (o : Nat → Except String ScoreJudgeResponse)
        (lat : Nat) (e : String), o 0 = Except.error e →
      (filter_wow_factor a t o lat).reasoning ≠ "" ∧
      (filter_values_fit a t o lat).reasoning ≠ "") ∧
    (∀ (a : ArticleData) (o : Nat → Except String NewsJudgeResponse) (lat : Nat),
      (filter_news_check a o lat).passed = false →
      (∀ r, o 0 = Except.ok r → r.reasoning ≠ "") →
      (filter_news_check a o lat).reasoning ≠ "") ∧
    (∀ (run_id : Nat) (article : Article) (filter_name : String)
        (filter_order : Nat) (decision reasoning : String) (score : Option ℚ)
        (it ot lm : Option Nat), reasoning ≠ "" →
      (record_trace run_id article filter_name filter_order decision reasoning
        score it ot lm).reasoning ≠ "") := by
  refine ⟨?_, ?_, ?_⟩
  · intro a t o lat e h
    constructor <;> simp only [filter_wow_factor, filter_values_fit, h] <;>
      exact filter_error_reasoning_ne e
  · intro a o lat hpassed hok
    by_cases hc : ((truncate_content a.content).isEmpty ||
        decide ((pyStrip (truncate_content a.content)).length < 50)) = true
    · simp only [filter_news_check, hc, if_true]
      intro h
      have hd := congrArg String.data h
      exact List.cons_ne_nil _ _ hd
    · have hc' : ((truncate_content a.content).isEmpty ||
          decide ((pyStrip (truncate_content a.content)).length < 50)) = false := by
        simpa using hc
      cases ho : o 0 with
      | ok r =>
          have := hok r ho
          simpa only [filter_news_check, hc', ho, Bool.false_eq_true,
            if_false] using this
      | error e =>
          simp only [filter_news_check, hc', ho, Bool.false_eq_true, if_false]
          exact filter_error_reasoning_ne e
  · intro run_id article fname forder decision reasoning score it ot lm h
    simp only [record_trace, if_neg h]
    exact pyTake_ne_empty reasoning 2000 (by decide) h

/-- Witness for `reject_reasoning_nonempty`: a timed-out wow call, a
news-error rejection, and a trace recorded from non-empty reasoning. -/
theorem reject_reasoning_nonempty_witness :
    (C4oracle 0 = Except.error "Request timed out" ∧
      (filter_wow_factor sampleArticleData 1 C4oracle 30).reasoning ≠ "") ∧
    ((filter_news_check sampleArticleData C4newsOracle 30).passed = false ∧
      (filter_news_check sampleArticleData C4newsOracle 30).reasoning ≠ "") ∧
    ("not news" ≠ "" ∧
      (record_trace 1 sampleArticle "news_check" 1 "reject" "not news" none
        (some 1) (some 1) (some 9)).reasoning ≠ "") :=
  ⟨⟨rfl, (reject_reasoning_nonempty.1 sampleArticleData 1 C4oracle 30
      "Request timed out" rfl).1⟩,
   ⟨by decide,
    reject_reasoning_nonempty.2.1 sampleArticleData C4newsOracle 30 (by decide)
      (fun r hr => Except.noConfusion hr)⟩,
   ⟨by decide,
    reject_reasoning_nonempty.2.2 1 sampleArticle "news_check" 1 "reject"
      "not news" none (some 1) (some 1) (some 9) (by decide)⟩⟩

/-- `C10trunc` in cons form (head is a non-whitespace letter). -/
theorem C10trunc_cons : C10trunc = 'a' ::
    (List.replicate 48 'a' ++ (List.replicate 7951 ' ' ++ TRUNCATION_SUFFIX)) := by
  rw [C10trunc, show (49 : Nat) = 48 + 1 from rfl, List.replicate_succ,
    List.cons_append]

/-- A judge oracle accepting everything as news. -/
def C10oracle : Nat → Except String NewsJudgeResponse :=
  fun _ => Except.ok { is_news := true, category := "news_article",
                       reasoning := "reports an event", input_tokens := 3,
                       output_tokens := 2 }

/-- **C10** counterexample: `C10content` (49 letters then 8000 spaces)
strips to 49 < 50 characters, yet News Check does *not* return the
deterministic insufficient-content rejection: the gate tests the truncated
content — 49 letters, 7951 spaces and the 24-character marker, which strips
to 8024 characters — so the judge is consulted and the item passes. -/
theorem short_content_truncation_cex :
    (pyStrip C10content).length < 50 ∧
    (filter_news_check
        { url := "https://x/10", title := "t", content := C10content }
        C10oracle 5).passed = true := by
  constructor
  · rw [C10content_strip_length]
    decide
  · have hcond : ((truncate_content C10content).isEmpty ||
        decide ((pyStrip (truncate_content C10content)).length < 50)) = false := by
      rw [C10content_truncate, C10trunc_strip, C10trunc_length, C10trunc_cons]
      rfl
    simp only [filter_news_check, hcond, Bool.false_eq_true, if_false]
    rfl

/-- **C10** (amended): the insufficient-content gate tests the *truncated*
content: whenever the truncated content is empty or strips to fewer than 50
characters, News Check returns the deterministic rejection — `passed` false,
category `other_non_news`, the fixed non-empty insufficiency reasoning, and
zero token and latency metrics — without consulting the judge (the result is
oracle-independent).  For contents within the 8000-character budget the
truncation is the identity, so the original claim holds there. -/
theorem insufficient_content_reject :
    (∀ (a : ArticleData) (o : Nat → Except String NewsJudgeResponse) (lat : Nat),
      ((truncate_content a.content).isEmpty = true ∨
        (pyStrip (truncate_content a.content)).length < 50) →
      filter_news_check a o lat =
        { passed := false, category := "other_non_news",
          reasoning := INSUFFICIENT_REASONING, input_tokens := some 0,
          output_tokens := some 0, latency_ms := some 0 }) ∧
    (∀ (a : ArticleData) (o : Nat → Except String NewsJudgeResponse) (lat : Nat),
      a.content.length ≤ CONTENT_LIMIT →
      (pyStrip a.content).length < 50 →
      filter_news_check a o lat =
        { passed := false, category := "other_non_news",
          reasoning := INSUFFICIENT_REASONING, input_tokens := some 0,
          output_tokens := some 0, latency_ms := some 0 }) := by
  have main : ∀ (a : ArticleData) (o : Nat → Except String NewsJudgeResponse)
      (lat : Nat),
      ((truncate_content a.content).isEmpty = true ∨
        (pyStrip (truncate_content a.content)).length < 50) →
      filter_news_check a o lat =
        { passed := false, category := "other_non_news",
          reasoning := INSUFFICIENT_REASONING, input_tokens := some 0,
          output_tokens := some 0, latency_ms := some 0 } := by
    intro a o lat hc
    have hcond : ((truncate_content a.content).isEmpty ||
        decide ((pyStrip (truncate_content a.content)).length < 50)) = true := by
      rcases hc with hc | hc <;> simp [hc]
    simp [filter_news_check, hcond]
  constructor
  · exact main
  · intro a o lat hlen hstrip
    have ht : truncate_content a.content = a.content := by
      rw [truncate_content, if_pos hlen]
    exact main a o lat (Or.inr (by rw [ht]; exact hstrip))

/-- Witness for `insufficient_content_reject`: a 10-character content is
rejected deterministically, through both stated forms of the gate. -/
theorem insufficient_content_reject_witness :
    ((pyStrip (truncate_content (List.replicate 10 'a'))).length < 50 ∧
      filter_news_check
          { url := "https://x/e", title := "t",
            content := List.replicate 10 'a' } C10oracle 5 =
        { passed := false, category := "other_non_news",
          reasoning := INSUFFICIENT_REASONING, input_tokens := some 0,
          output_tokens := some 0, latency_ms := some 0 }) ∧
    ((List.replicate 10 'a').length ≤ CONTENT_LIMIT ∧
      (pyStrip (List.replicate 10 'a')).length < 50 ∧
      filter_news_check
          { url := "https://x/e", title := "t",
            content := List.replicate 10 'a' } C10oracle 5 =
        { passed := false, category := "other_non_news",
          reasoning := INSUFFICIENT_REASONING, input_tokens := some 0,
          output_tokens := some 0, latency_ms := some 0 }) :=
  ⟨⟨by decide,
    insufficient_content_reject.1
      { url := "https://x/e", title := "t", content := List.replicate 10 'a' }
      C10oracle 5 (Or.inr (by decide))⟩,
   ⟨by decide, by decide,
    insufficient_content_reject.2
      { url := "https://x/e", title := "t", content := List.replicate 10 'a' }
      C10oracle 5 (by decide) (by decide)⟩⟩
